import Mathlib

/-!
Shallow embedding of the command dispatch / device presence core of the
parental-control backend (command controller, device controller,
`Command` and `Device` models, and the offline-detection cron job).

Timestamps are Unix milliseconds modelled as `Nat`.  MongoDB documents
are Lean structures; a collection is a `List`.  Mongo's `$gt` / `$lt`
comparisons on a missing (`Option.none`) field do not match, exactly as
in MongoDB.  String-valued fields that Mongo compares bytewise (the
`priority` enum in `.sort`) are modelled through their actual string
values, compared with Lean's bytewise string order.
-/

namespace Wabs

/-- The `priority` enum of `commandSchema` in `src/models/Command.js`. -/
inductive Priority
  | low
  | normal
  | high
  | critical
deriving DecidableEq, Repr

/-- The string value stored in MongoDB for each priority. -/
def priorityStr : Priority → String
  | .low => "low"
  | .normal => "normal"
  | .high => "high"
  | .critical => "critical"

/-- The `status` enum of `commandSchema` in `src/models/Command.js`. -/
inductive Status
  | pending
  | sent
  | delivered
  | executing
  | completed
  | failed
  | expired
deriving DecidableEq, Repr

/-- The `enum` array of `commandSchema.status`, in source order. -/
def statusEnum : List Status :=
  [.pending, .sent, .delivered, .executing, .completed, .failed, .expired]

/-- The `type` enum of `commandSchema`. -/
inductive CommandType
  | lock_device
  | unlock_device
  | show_message
  | play_sound
  | vibrate
  | take_screenshot
  | get_location
  | enable_app
  | disable_app
  | set_time_limit
  | update_settings
  | factory_reset
deriving DecidableEq, Repr

/-- The `executionResult` subdocument of `commandSchema`. -/
structure ExecResult where
  success : Bool
  message : String
  errorCode : Option String := none
  timestamp : Nat
  data : List (String × String) := []
deriving DecidableEq, Repr

/-- A `Command` document (`src/models/Command.js`).  The opaque
`command` payload map is a key/value association list. -/
structure Cmd where
  id : Nat
  deviceId : Nat
  parentId : Nat
  type : CommandType
  command : List (String × String)
  priority : Priority := .normal
  status : Status := .pending
  executionResult : Option ExecResult := none
  expiresAt : Option Nat := none
  retryCount : Nat := 0
  nextRetryAt : Option Nat := none
  scheduledAt : Option Nat := none
  createdAt : Nat
  deliveredAt : Option Nat := none
  executedAt : Option Nat := none
  failureReason : Option String := none
deriving DecidableEq, Repr

/-- The command collection. -/
abbrev Store := List Cmd

/-- `commandSchema.pre save` hook: when `expiresAt` is unset, default it
to 24 hours from now for non-critical priorities and 168 hours (7 days)
for critical. -/
def preSave (now : Nat) (c : Cmd) : Cmd :=
  match c.expiresAt with
  | some _ => c
  | none =>
      let expirationHours : Nat := if c.priority = .critical then 168 else 24
      { c with expiresAt := some (now + expirationHours * 60 * 60 * 1000) }

/-- `Command.create` with the fields the controllers pass
(deviceId, parentId, type, command, priority); all other fields take
their schema defaults, then the pre-save hook runs. -/
def createCommand (id deviceId parentId : Nat) (type : CommandType)
    (payload : List (String × String)) (priority : Priority) (now : Nat) : Cmd :=
  preSave now
    { id := id, deviceId := deviceId, parentId := parentId, type := type,
      command := payload, priority := priority, createdAt := now }

/-- The Mongo filter of `getPendingCommands` (and of the pending-command
read inside `receiveHeartbeat`): matching `deviceId`, `status` in
`[pending, sent]`, and `expiresAt` strictly greater than now.  A
document whose `expiresAt` is missing does not match `$gt`.
Note: the filter does not mention `nextRetryAt`. -/
def pullFilter (deviceId now : Nat) (c : Cmd) : Bool :=
  c.deviceId == deviceId &&
  (c.status == .pending || c.status == .sent) &&
  (match c.expiresAt with
   | some e => decide (now < e)
   | none => false)

/-- The comparator realised by `.sort` on `priority` descending then
`createdAt` ascending.  `priority` is stored as a string, and MongoDB
orders BSON strings bytewise, so the descending key is the bytewise
string order of the priority name, not the semantic rank. -/
def pullBefore (a b : Cmd) : Bool :=
  decide (priorityStr b.priority < priorityStr a.priority) ||
  (priorityStr a.priority == priorityStr b.priority &&
   decide (a.createdAt ≤ b.createdAt))

/-- `getPendingCommands`: select the eligible commands of the device,
sorted with `pullBefore`, and mark every selected command `sent`
(`updateMany` over the selected ids).  Returns the selected documents
(in delivery order) and the updated collection. -/
def getPendingCommands (store : Store) (deviceId now : Nat) :
    List Cmd × Store :=
  let commands := (store.filter (pullFilter deviceId now)).mergeSort pullBefore
  let ids := commands.map Cmd.id
  (commands,
   store.map (fun c => if ids.contains c.id then { c with status := .sent } else c))

/-- Errors surfaced by the controllers (HTTP 404). -/
inductive ApiError
  | notFound
deriving DecidableEq, Repr

/-- `acknowledgeCommand`: `findByIdAndUpdate(commandId, status
delivered)`.  There is no guard on the current status: any existing
command, whatever its state, is set to `delivered`; only an unknown id
yields `notFound`. -/
def acknowledgeCommand (store : Store) (commandId : Nat) :
    Except ApiError Store :=
  if store.any (fun c => c.id == commandId) then
    .ok (store.map (fun c =>
      if c.id == commandId then { c with status := .delivered } else c))
  else
    .error .notFound

/-- `commandSchema.methods.markAsDelivered`. -/
def markAsDelivered (now : Nat) (c : Cmd) : Cmd :=
  { c with status := .delivered, deliveredAt := some now }

/-- `commandSchema.methods.markAsExecuting`. -/
def markAsExecuting (c : Cmd) : Cmd :=
  { c with status := .executing }

/-- `commandSchema.methods.markAsCompleted`. -/
def markAsCompleted (now : Nat) (result : ExecResult) (c : Cmd) : Cmd :=
  { c with status := .completed, executedAt := some now,
           executionResult := some result }

/-- `commandSchema.methods.markAsFailed`: increment `retryCount`; at 5
or more the status becomes terminal `failed`, otherwise the status is
restored to `pending` with `nextRetryAt` set `2 ^ retryCount` seconds
(exponential backoff, in milliseconds) in the future. -/
def markAsFailed (now : Nat) (reason : String) (c : Cmd) : Cmd :=
  let retryCount := c.retryCount + 1
  if 5 ≤ retryCount then
    { c with retryCount := retryCount, failureReason := some reason,
             status := .failed }
  else
    { c with retryCount := retryCount, failureReason := some reason,
             status := .pending,
             nextRetryAt := some (now + 2 ^ retryCount * 1000) }

/-- Persist one updated document back into the collection (Mongoose
`save` of a fetched document, keyed by its unique id). -/
def saveCmd (store : Store) (c : Cmd) : Store :=
  store.map (fun x => if x.id == c.id then c else x)

/-- `reportCommandResult`: look the command up by id only (no state
guard), then `markAsCompleted` on success or `markAsFailed` on
failure.  Unknown ids yield `notFound`. -/
def reportCommandResult (store : Store) (commandId : Nat) (success : Bool)
    (message : Option String) (data : List (String × String)) (now : Nat) :
    Except ApiError Store :=
  match store.find? (fun c => c.id == commandId) with
  | none => .error .notFound
  | some c =>
      if success then
        .ok (saveCmd store (markAsCompleted now
          { success := true,
            message := message.getD "Command executed successfully",
            timestamp := now, data := data } c))
      else
        .ok (saveCmd store (markAsFailed now
          (message.getD "Command execution failed") c))

/-- The `findOneAndUpdate` filter of `cancelCommand`: matching id,
owning parent, and status in `[pending, sent]`. -/
def cancelFilter (commandId parentId : Nat) (c : Cmd) : Bool :=
  c.id == commandId && c.parentId == parentId &&
  (c.status == .pending || c.status == .sent)

/-- `cancelCommand`: set the matching command's status to `expired`;
when nothing matches (unknown id, wrong owner, or a status outside
`[pending, sent]`) answer `notFound`. -/
def cancelCommand (store : Store) (commandId parentId : Nat) :
    Except ApiError Store :=
  if store.any (cancelFilter commandId parentId) then
    .ok (store.map (fun c =>
      if cancelFilter commandId parentId c then { c with status := .expired } else c))
  else
    .error .notFound

/-- The `findOne` filter of `retryCommand`: matching id, owning parent,
and status exactly `failed`. -/
def retryFilter (commandId parentId : Nat) (c : Cmd) : Bool :=
  c.id == commandId && c.parentId == parentId && c.status == .failed

/-- `retryCommand`: find the caller's terminal-failed command and create
a brand-new command cloning deviceId, parentId, type, command payload
and priority; the new document takes the schema defaults for everything
else (status `pending`, `retryCount` 0) and a fresh id. -/
def retryCommand (store : Store) (commandId parentId freshId now : Nat) :
    Except ApiError (Cmd × Store) :=
  match store.find? (retryFilter commandId parentId) with
  | none => .error .notFound
  | some c =>
      let newCommand :=
        createCommand freshId c.deviceId c.parentId c.type c.command c.priority now
      .ok (newCommand, store ++ [newCommand])

/-- The device settings fields the core reads (`deviceSchema.settings`). -/
structure DeviceSettings where
  heartbeatInterval : Nat := 300
  maxBatteryAlert : Nat := 20
deriving DecidableEq, Repr

/-- A `Device` document (`src/models/Device.js`), restricted to the
fields the dispatch/presence core reads or writes. -/
structure Device where
  deviceId : Nat
  deviceName : String := "Child Device"
  parentId : Nat
  isOnline : Bool := false
  lastHeartbeat : Option Nat := none
  batteryLevel : Nat := 0
  isCharging : Bool := false
  settings : DeviceSettings := {}
deriving DecidableEq, Repr

/-- Alert `type` values produced by the presence core. -/
inductive AlertType
  | device_offline
  | low_battery
deriving DecidableEq, Repr

/-- Alert `severity` enum. -/
inductive Severity
  | low
  | medium
  | high
  | critical
deriving DecidableEq, Repr

/-- An `Alert` document, restricted to the fields the presence core
writes; the free-form `data` subdocument is flattened into the three
optional fields the two call sites populate. -/
structure Alert where
  deviceId : Nat
  parentId : Nat
  type : AlertType
  message : String
  severity : Severity
  dataLastHeartbeat : Option Nat := none
  dataOfflineSince : Option Nat := none
  dataBatteryLevel : Option Nat := none
deriving DecidableEq, Repr

/-- The Mongo filter of the offline cron job: `isOnline` true and
`lastHeartbeat` strictly below the cutoff (now minus the threshold).
A device with no `lastHeartbeat` does not match `$lt`. -/
def offlineFilter (now threshold : Nat) (d : Device) : Bool :=
  d.isOnline &&
  (match d.lastHeartbeat with
   | some t => decide (t < now - threshold)
   | none => false)

/-- The `device_offline` alert the cron job creates for one swept
device. -/
def offlineAlert (now threshold : Nat) (d : Device) : Alert :=
  { deviceId := d.deviceId, parentId := d.parentId, type := .device_offline,
    message := "Device " ++ d.deviceName ++
      " has been offline for more than 15 minutes",
    severity := .medium,
    dataLastHeartbeat := d.lastHeartbeat,
    dataOfflineSince := some (now - threshold) }

/-- The offline cron job (`detectOfflineDevices`): every device matching
`offlineFilter` is flipped to `isOnline` false and gets exactly one
`device_offline` alert; devices already offline (or with a recent
heartbeat) are left untouched and get no alert. -/
def detectOfflineDevices (now threshold : Nat) (devices : List Device) :
    List Device × List Alert :=
  (devices.map (fun d =>
     if offlineFilter now threshold d then { d with isOnline := false } else d),
   (devices.filter (offlineFilter now threshold)).map (offlineAlert now threshold))

/-- `deviceSchema.methods.updateHeartbeat`. -/
def updateHeartbeat (now batteryLevel : Nat) (isCharging : Bool) (d : Device) :
    Device :=
  { d with lastHeartbeat := some now, isOnline := true,
           batteryLevel := batteryLevel, isCharging := isCharging }

/-- The per-command summary `receiveHeartbeat` answers with
(id, type, command, priority — no timestamps). -/
structure HeartbeatItem where
  id : Nat
  type : CommandType
  command : List (String × String)
  priority : Priority
deriving DecidableEq, Repr

/-- Summarise one command document for the heartbeat response. -/
def heartbeatItem (c : Cmd) : HeartbeatItem :=
  { id := c.id, type := c.type, command := c.command, priority := c.priority }

/-- Everything `receiveHeartbeat` leaves behind: the updated device
collection, the (unchanged) command collection, the alerts it created,
and the response body fields. -/
structure HeartbeatOutcome where
  devices : List Device
  commands : Store
  alerts : List Alert
  requiresAction : Bool
  pendingCommands : List HeartbeatItem
deriving DecidableEq, Repr

/-- `receiveHeartbeat`: updates the device's heartbeat fields, raises a
`low_battery` alert when the reported level is at or below the device's
threshold while not charging, and reads (without any update) the
device's pending commands with the same filter as the pull endpoint.
Telemetry fields outside the modelled `Device` record are not written to
the command collection and are omitted.  Unknown devices get
`notFound`. -/
def receiveHeartbeat (devices : List Device) (cmds : Store)
    (deviceId batteryLevel : Nat) (isCharging : Bool) (now : Nat) :
    Except ApiError HeartbeatOutcome :=
  match devices.find? (fun d => d.deviceId == deviceId) with
  | none => .error .notFound
  | some device =>
      let pending := cmds.filter (pullFilter deviceId now)
      .ok
        { devices := devices.map (fun d =>
            if d.deviceId == deviceId then
              updateHeartbeat now batteryLevel isCharging d
            else d),
          commands := cmds,
          alerts :=
            if batteryLevel ≤ device.settings.maxBatteryAlert && !isCharging then
              [{ deviceId := deviceId, parentId := device.parentId,
                 type := .low_battery,
                 message := "Low battery alert: " ++ toString batteryLevel ++
                   "% remaining",
                 severity := if batteryLevel ≤ 10 then .critical else .medium,
                 dataBatteryLevel := some batteryLevel }]
            else [],
          requiresAction := decide (0 < pending.length),
          pendingCommands := pending.map heartbeatItem }

/-- Every mutation the repository ever applies to an existing command
document, gathered as one step type: the pull endpoint's bulk update to
`sent`, the guard-free acknowledge, the model methods, and the
status-guarded cancel. -/
inductive CmdOp
  | pullMark (deviceId now : Nat)
  | ack
  | deliver (now : Nat)
  | execute
  | complete (now : Nat) (r : ExecResult)
  | fail (now : Nat) (reason : String)
  | cancel (parentId : Nat)

/-- Apply one mutation to one command document, with exactly the guard
each code path has. -/
def applyOp (op : CmdOp) (c : Cmd) : Cmd :=
  match op with
  | .pullMark deviceId now =>
      if pullFilter deviceId now c then { c with status := .sent } else c
  | .ack => { c with status := .delivered }
  | .deliver now => markAsDelivered now c
  | .execute => markAsExecuting c
  | .complete now r => markAsCompleted now r c
  | .fail now reason => markAsFailed now reason c
  | .cancel parentId =>
      if cancelFilter c.id parentId c then { c with status := .expired } else c

/-! ### Concrete fixtures -/

/-- C1 fixture A: priority high, createdAt t1 = 100. -/
def cmdA : Cmd :=
  { id := 1, deviceId := 7, parentId := 1, type := .lock_device,
    command := [], priority := .high, expiresAt := some 10000, createdAt := 100 }

/-- C1 fixture B: priority critical, createdAt t2 = 200 (later than A). -/
def cmdB : Cmd := { cmdA with id := 2, priority := .critical, createdAt := 200 }

/-- C1 fixture C: priority high, createdAt t3 = 300 (later than A). -/
def cmdC : Cmd := { cmdA with id := 3, createdAt := 300 }

/-- C2 fixture: a pending command whose last failure (at time 1000) set
`nextRetryAt` to 3000, two backoff seconds in the future. -/
def cmdBackoff : Cmd :=
  { id := 4, deviceId := 7, parentId := 1, type := .lock_device,
    command := [], priority := .normal, expiresAt := some 1000000,
    nextRetryAt := some 3000, createdAt := 100 }

/-- C4 fixture: a command already in the terminal `completed` state. -/
def cmdDone : Cmd :=
  { id := 5, deviceId := 7, parentId := 1, type := .lock_device,
    command := [], status := .completed, expiresAt := some 10000,
    createdAt := 100 }

/-- C5 fixture: a pending command about to be cancelled. -/
def cmdToCancel : Cmd :=
  { id := 6, deviceId := 7, parentId := 1, type := .lock_device,
    command := [], status := .pending, expiresAt := some 10000,
    createdAt := 100 }

/-! ### C1 -/

/-- Claim C1: pullPending is claimed to order commands by semantic
priority descending (critical before high before normal before low),
then createdAt ascending, so that A(high, t1), B(critical, t2 greater
than t1), C(high, t3 greater than t1) pull as B, A, C.  The code sorts
on the stored priority *string* bytewise, under which "high" is greater
than "critical", so the actual pull order is A, C, B — the critical
command comes last, not first. -/
theorem pull_order_is_lexicographic_not_semantic :
    (getPendingCommands [cmdA, cmdB, cmdC] 7 1000).1.map Cmd.id = [1, 3, 2] ∧
    (getPendingCommands [cmdA, cmdB, cmdC] 7 1000).1.map Cmd.id ≠ [2, 1, 3] := by
  constructor
  · simp +decide [getPendingCommands, List.mergeSort, List.merge, pullFilter,
      pullBefore, priorityStr, cmdA, cmdB, cmdC]
  · simp +decide [getPendingCommands, List.mergeSort, List.merge, pullFilter,
      pullBefore, priorityStr, cmdA, cmdB, cmdC]

/-! ### C2 -/

/-- Claim C2: every command returned by pullPending is claimed to
satisfy the backoff gate (`nextRetryAt` unset or now at or past it).
The pull query never mentions `nextRetryAt`: at now = 1000 the fixture
whose `nextRetryAt` is 3000 (strictly in the future) is returned
anyway. -/
theorem pull_ignores_backoff_deadline :
    cmdBackoff.nextRetryAt = some 3000 ∧ (1000 : Nat) < 3000 ∧
    (getPendingCommands [cmdBackoff] 7 1000).1.map Cmd.id = [4] := by
  refine ⟨rfl, by norm_num, ?_⟩
  simp +decide [getPendingCommands, List.mergeSort, List.merge, pullFilter,
    cmdBackoff]

/-! ### C4 -/

/-- Claim C4: acknowledge is claimed to move only `sent` commands to
`delivered` and to reject (without mutation) commands in a terminal
state.  The code's `findByIdAndUpdate` has no status guard: an
acknowledge of the `completed` fixture overwrites its status to
`delivered` and answers success (an unknown id does answer
`notFound`). -/
theorem acknowledge_overwrites_terminal_status :
    cmdDone.status = .completed ∧
    acknowledgeCommand [cmdDone] 5 = .ok [{ cmdDone with status := .delivered }] ∧
    acknowledgeCommand [cmdDone] 99 = .error .notFound := by
  exact ⟨rfl, rfl, rfl⟩

/-! ### C5 -/

/-- Claim C5: a result reported for a cancelled (terminal `expired`)
command is claimed to be accepted but ignored for state purposes.  The
code accepts it and *applies* it: after `cancelCommand` moves the
fixture to `expired`, a successful `reportCommandResult` rewrites its
status to `completed` (and a failing one would push it back to
`pending`), so the terminal state does not stick. -/
theorem report_after_cancel_mutates_state :
    cancelCommand [cmdToCancel] 6 1 =
      .ok [{ cmdToCancel with status := .expired }] ∧
    (reportCommandResult [{ cmdToCancel with status := .expired }] 6 true
        none [] 5000).map (fun s => s.map Cmd.status) = .ok [.completed] ∧
    (reportCommandResult [{ cmdToCancel with status := .expired }] 6 false
        none [] 5000).map (fun s => s.map Cmd.status) = .ok [.pending] := by
  exact ⟨rfl, rfl, rfl⟩

/-! ### C3 -/

/-- No mutation path takes a retry-exhausted, non-pending command back
to `pending`, and none decreases `retryCount`. -/
theorem applyOp_exhausted (op : CmdOp) (c : Cmd)
    (h5 : 5 ≤ c.retryCount) (hp : c.status ≠ .pending) :
    5 ≤ (applyOp op c).retryCount ∧ (applyOp op c).status ≠ .pending := by
  cases op with
  | pullMark deviceId now =>
      simp only [applyOp]
      split <;> simp_all
  | ack => exact ⟨h5, by simp [applyOp]⟩
  | deliver now => exact ⟨h5, by simp [applyOp, markAsDelivered]⟩
  | execute => exact ⟨h5, by simp [applyOp, markAsExecuting]⟩
  | complete now r => exact ⟨h5, by simp [applyOp, markAsCompleted]⟩
  | fail now reason =>
      have h : 5 ≤ c.retryCount + 1 := by omega
      simp [applyOp, markAsFailed, h]
  | cancel parentId =>
      simp only [applyOp]
      split <;> simp_all

/-- A retry-exhausted, non-pending command stays non-pending under any
sequence of repository mutations. -/
theorem foldl_exhausted (ops : List CmdOp) (c : Cmd)
    (h5 : 5 ≤ c.retryCount) (hp : c.status ≠ .pending) :
    (ops.foldl (fun x op => applyOp op x) c).status ≠ .pending := by
  induction ops generalizing c with
  | nil => simpa using hp
  | cons op rest ih =>
      obtain ⟨h5', hp'⟩ := applyOp_exhausted op c h5 hp
      exact ih _ h5' hp'

/-- Claim C3: a failed result increments `retryCount`; while the
incremented count is below 5 the status goes back to `pending` with
`nextRetryAt` = now + 2 ^ retryCount seconds (first failure: count 1,
backoff 2 s); once the count reaches 5 the status is terminal `failed`,
and a command with `retryCount` = 5 can never re-enter `pending` under
any sequence of repository mutations. -/
theorem markAsFailed_retry_policy (c : Cmd) (now : Nat) (reason : String)
    (ops : List CmdOp) :
    (markAsFailed now reason c).retryCount = c.retryCount + 1 ∧
    (c.retryCount + 1 < 5 →
      (markAsFailed now reason c).status = .pending ∧
      (markAsFailed now reason c).nextRetryAt =
        some (now + 2 ^ (c.retryCount + 1) * 1000)) ∧
    (c.retryCount = 0 →
      (markAsFailed now reason c).retryCount = 1 ∧
      (markAsFailed now reason c).nextRetryAt = some (now + 2000)) ∧
    (5 ≤ c.retryCount + 1 → (markAsFailed now reason c).status = .failed) ∧
    (5 ≤ c.retryCount → c.status ≠ .pending →
      (ops.foldl (fun x op => applyOp op x) c).status ≠ .pending) := by
  refine ⟨?_, ?_, ?_, ?_, fun h5 hp => foldl_exhausted ops c h5 hp⟩
  · simp only [markAsFailed]
    split <;> rfl
  · intro h
    have hlt : ¬ 5 ≤ c.retryCount + 1 := by omega
    simp [markAsFailed, hlt]
  · intro h0
    have hlt : ¬ 5 ≤ c.retryCount + 1 := by omega
    simp [markAsFailed, hlt, h0]
  · intro h
    simp [markAsFailed, h]

/-- A terminal-failed command with the retry ceiling reached. -/
def cmdExhausted : Cmd :=
  { id := 8, deviceId := 7, parentId := 1, type := .lock_device,
    command := [], status := .failed, retryCount := 5,
    expiresAt := some 10000, createdAt := 100 }

/-- Witness for C3 at a concrete exhausted command and a concrete
mutation sequence. -/
theorem markAsFailed_retry_policy_witness :
    (5 : Nat) ≤ cmdExhausted.retryCount ∧ cmdExhausted.status ≠ .pending ∧
    (([CmdOp.ack, CmdOp.fail 2000 "again", CmdOp.pullMark 7 2500].foldl
        (fun x op => applyOp op x) cmdExhausted).status ≠ .pending) :=
  ⟨by decide, by decide,
   (markAsFailed_retry_policy cmdExhausted 0 "r"
      [CmdOp.ack, CmdOp.fail 2000 "again", CmdOp.pullMark 7 2500]).2.2.2.2
     (by decide) (by decide)⟩

/-! ### C6 -/

/-- Claim C6: pullPending never returns a command whose `expiresAt` is
at or before now, for every store, device and state: every returned
command has an `expiresAt` strictly in the future (so a command merely
not yet swept to `expired` is still excluded). -/
theorem pullPending_never_returns_expired (store : Store) (deviceId now : Nat)
    (c : Cmd) (hc : c ∈ (getPendingCommands store deviceId now).1) :
    ∃ e, c.expiresAt = some e ∧ now < e := by
  have hf : pullFilter deviceId now c = true := by
    have hm : c ∈ store.filter (pullFilter deviceId now) := by
      simp only [getPendingCommands] at hc
      exact List.mem_mergeSort.mp hc
    exact List.of_mem_filter hm
  simp only [pullFilter, Bool.and_eq_true] at hf
  cases hce : c.expiresAt with
  | none => rw [hce] at hf; simp at hf
  | some e =>
      rw [hce] at hf
      refine ⟨e, rfl, ?_⟩
      simpa using hf.2

/-- An eligible pending command used to witness C6. -/
def cmdEligible : Cmd :=
  { id := 11, deviceId := 7, parentId := 1, type := .get_location,
    command := [], priority := .normal, status := .pending,
    expiresAt := some 5000, createdAt := 100 }

/-- Witness for C6 at a concrete store. -/
theorem pullPending_never_returns_expired_witness :
    cmdEligible ∈ (getPendingCommands [cmdEligible] 7 1000).1 ∧
    ∃ e, cmdEligible.expiresAt = some e ∧ 1000 < e := by
  have hmem : cmdEligible ∈ (getPendingCommands [cmdEligible] 7 1000).1 := by
    simp +decide [getPendingCommands, List.mergeSort, pullFilter, cmdEligible]
  exact ⟨hmem,
    pullPending_never_returns_expired [cmdEligible] 7 1000 cmdEligible hmem⟩

/-! ### C7 -/

/-- Counting one sweep's alerts for a device id reduces to counting the
selected device records with that id. -/
theorem countP_detect_alerts (devices : List Device) (now threshold did : Nat) :
    (detectOfflineDevices now threshold devices).2.countP
        (fun a => a.deviceId == did) =
    devices.countP
        (fun x => offlineFilter now threshold x && x.deviceId == did) := by
  simp only [detectOfflineDevices]
  rw [List.countP_map, List.countP_filter]
  congr 1
  funext x
  simp [offlineAlert, Function.comp, Bool.and_comm]

/-- In a device list with pairwise distinct device ids, the records
matching a predicate and carrying the id of a member `d` are counted by
whether `d` itself matches. -/
theorem countP_by_id_nodup (devices : List Device) (d : Device)
    (q : Device → Bool) (hmem : d ∈ devices)
    (hnd : (devices.map Device.deviceId).Nodup) :
    devices.countP (fun x => q x && x.deviceId == d.deviceId) =
      if q d then 1 else 0 := by
  induction devices with
  | nil => cases hmem
  | cons a rest ih =>
      rw [List.map_cons, List.nodup_cons] at hnd
      rw [List.countP_cons]
      rcases List.mem_cons.mp hmem with h | h
      · subst h
        have hrest : rest.countP (fun x => q x && x.deviceId == d.deviceId) = 0 := by
          rw [List.countP_eq_zero]
          intro x hx
          simp only [Bool.and_eq_true, beq_iff_eq, not_and]
          intro _ hxid
          exact hnd.1 (hxid ▸ List.mem_map_of_mem Device.deviceId hx)
        rw [hrest]
        simp
      · have haid : a.deviceId ≠ d.deviceId := by
          intro he
          exact hnd.1 (he ▸ List.mem_map_of_mem Device.deviceId h)
        rw [ih h hnd.2]
        simp [haid]

/-- The sweep changes no device id, so distinctness of ids survives it. -/
theorem detect_preserves_ids (devices : List Device) (now threshold : Nat) :
    (detectOfflineDevices now threshold devices).1.map Device.deviceId =
      devices.map Device.deviceId := by
  simp only [detectOfflineDevices, List.map_map]
  apply List.map_congr_left
  intro x _
  simp only [Function.comp]
  split <;> rfl

/-- Claim C7: one sweep selects exactly the online devices whose last
heartbeat is more than the threshold in the past, flips each selected
device offline, and emits exactly one `device_offline` alert for it; a
second sweep run on the swept state (the device still silent, so its
record is the flipped one) emits zero further alerts for that device,
because already-offline devices are skipped. -/
theorem offline_sweep_single_alert (devices : List Device)
    (now threshold now2 : Nat) (d : Device)
    (hmem : d ∈ devices)
    (hnd : (devices.map Device.deviceId).Nodup) :
    (offlineFilter now threshold d = true ↔
      (d.isOnline = true ∧ ∃ t, d.lastHeartbeat = some t ∧ threshold < now - t)) ∧
    (offlineFilter now threshold d = true →
      { d with isOnline := false } ∈ (detectOfflineDevices now threshold devices).1) ∧
    ((detectOfflineDevices now threshold devices).2.countP
        (fun a => a.deviceId == d.deviceId) =
      if offlineFilter now threshold d then 1 else 0) ∧
    (offlineFilter now threshold d = true →
      (detectOfflineDevices now2 threshold
          (detectOfflineDevices now threshold devices).1).2.countP
        (fun a => a.deviceId == d.deviceId) = 0) := by
  refine ⟨?_, ?_, ?_, ?_⟩
  · constructor
    · intro h
      simp only [offlineFilter, Bool.and_eq_true] at h
      refine ⟨h.1, ?_⟩
      cases hlh : d.lastHeartbeat with
      | none => rw [hlh] at h; simp at h
      | some t =>
          rw [hlh] at h
          have ht : t < now - threshold := by simpa using h.2
          exact ⟨t, rfl, by omega⟩
    · rintro ⟨hon, t, hlh, ht⟩
      have ht' : t < now - threshold := by omega
      simp [offlineFilter, hon, hlh, ht']
  · intro h
    simp only [detectOfflineDevices]
    exact List.mem_map.mpr ⟨d, hmem, by simp [h]⟩
  · rw [countP_detect_alerts]
    exact countP_by_id_nodup devices d (offlineFilter now threshold) hmem hnd
  · intro h
    have hd1 : { d with isOnline := false } ∈
        (detectOfflineDevices now threshold devices).1 := by
      simp only [detectOfflineDevices]
      exact List.mem_map.mpr ⟨d, hmem, by simp [h]⟩
    have hnd1 : ((detectOfflineDevices now threshold devices).1.map
        Device.deviceId).Nodup := by
      rw [detect_preserves_ids]; exact hnd
    have hcount := countP_by_id_nodup
      (detectOfflineDevices now threshold devices).1
      { d with isOnline := false } (offlineFilter now2 threshold) hd1 hnd1
    have hoff : offlineFilter now2 threshold { d with isOnline := false } = false := by
      simp [offlineFilter]
    rw [countP_detect_alerts]
    rw [hcount, hoff]
    simp

/-- A device silent past the 15-minute threshold, to witness C7. -/
def devSilent : Device :=
  { deviceId := 1, parentId := 2, isOnline := true,
    lastHeartbeat := some 50000 }

/-- Witness for C7 at one concrete silent device, with the cron job's
15-minute (900000 ms) threshold. -/
theorem offline_sweep_single_alert_witness :
    devSilent ∈ [devSilent] ∧
    (([devSilent].map Device.deviceId).Nodup) ∧
    ((offlineFilter 1000000 900000 devSilent = true ↔
      (devSilent.isOnline = true ∧
        ∃ t, devSilent.lastHeartbeat = some t ∧ 900000 < 1000000 - t)) ∧
    (offlineFilter 1000000 900000 devSilent = true →
      { devSilent with isOnline := false } ∈
        (detectOfflineDevices 1000000 900000 [devSilent]).1) ∧
    ((detectOfflineDevices 1000000 900000 [devSilent]).2.countP
        (fun a => a.deviceId == devSilent.deviceId) =
      if offlineFilter 1000000 900000 devSilent then 1 else 0) ∧
    (offlineFilter 1000000 900000 devSilent = true →
      (detectOfflineDevices 2000000 900000
          (detectOfflineDevices 1000000 900000 [devSilent]).1).2.countP
        (fun a => a.deviceId == devSilent.deviceId) = 0)) :=
  ⟨by decide, by decide,
   offline_sweep_single_alert [devSilent] 1000000 900000 2000000 devSilent
     (by decide) (by decide)⟩

/-! ### C8 -/

/-- Claim C8: for a terminal-failed command owned by the calling
parent, `retry` creates a new record with a fresh id (never the old
one), `retryCount` 0, status `pending`, and type, payload, priority,
deviceId and parentId identical to the original; when no owned
terminal-failed command matches (unknown id, foreign owner, or a status
other than `failed`), `retry` answers `notFound`. -/
theorem retry_clones_failed_command (store : Store)
    (commandId parentId freshId now : Nat) :
    (∀ c, store.find? (retryFilter commandId parentId) = some c →
      (∀ x ∈ store, x.id ≠ freshId) →
      ∃ nc, retryCommand store commandId parentId freshId now =
          .ok (nc, store ++ [nc]) ∧
        nc.id = freshId ∧ nc.id ≠ c.id ∧ nc.retryCount = 0 ∧
        nc.status = .pending ∧ nc.type = c.type ∧ nc.command = c.command ∧
        nc.priority = c.priority ∧ nc.deviceId = c.deviceId ∧
        nc.parentId = c.parentId) ∧
    (store.find? (retryFilter commandId parentId) = none →
      retryCommand store commandId parentId freshId now = .error .notFound) := by
  constructor
  · intro c hfind hfresh
    have hc : c ∈ store := List.mem_of_find?_eq_some hfind
    have hne : c.id ≠ freshId := hfresh c hc
    refine ⟨createCommand freshId c.deviceId c.parentId c.type c.command
      c.priority now, by simp [retryCommand, hfind], ?_, ?_, ?_, ?_, ?_, ?_,
      ?_, ?_, ?_⟩
    all_goals simp [createCommand, preSave]
    exact fun he => hne he.symm
  · intro hnone
    simp [retryCommand, hnone]

/-- A terminal-failed command owned by parent 2, to witness C8. -/
def cmdFailedOwned : Cmd :=
  { id := 9, deviceId := 7, parentId := 2, type := .show_message,
    command := [("text", "hi")], priority := .high, status := .failed,
    retryCount := 5, expiresAt := some 10000, createdAt := 100 }

/-- Witness for C8 at a concrete failed command and fresh id 50. -/
theorem retry_clones_failed_command_witness :
    ([cmdFailedOwned].find? (retryFilter 9 2) = some cmdFailedOwned) ∧
    (∀ x ∈ [cmdFailedOwned], x.id ≠ 50) ∧
    (∃ nc, retryCommand [cmdFailedOwned] 9 2 50 1000 =
        .ok (nc, [cmdFailedOwned] ++ [nc]) ∧
      nc.id = 50 ∧ nc.id ≠ cmdFailedOwned.id ∧ nc.retryCount = 0 ∧
      nc.status = .pending ∧ nc.type = cmdFailedOwned.type ∧
      nc.command = cmdFailedOwned.command ∧
      nc.priority = cmdFailedOwned.priority ∧
      nc.deviceId = cmdFailedOwned.deviceId ∧
      nc.parentId = cmdFailedOwned.parentId) :=
  ⟨by decide, by decide,
   (retry_clones_failed_command [cmdFailedOwned] 9 2 50 1000).1 cmdFailedOwned
     (by decide) (by decide)⟩

/-! ### C9 -/

/-- Claim C9 counterexample: the schema's `status` enum has seven
values, not nine, and every status is among those seven — so "exactly
one of the nine enumerated values" is false as stated. -/
theorem status_enum_has_seven_values :
    statusEnum.length = 7 ∧ statusEnum.length ≠ 9 ∧
    (∀ s : Status, s ∈ statusEnum) := by
  refine ⟨rfl, by decide, ?_⟩
  intro s
  cases s <;> decide

/-- Claim C9 (amended): at any point in time a command's status is
exactly one of the seven enumerated values, and `expiresAt` is set no
later than first persistence (the pre-save hook always leaves it set),
defaulting — when not supplied — to 24 hours from creation for normal
priority and 168 hours for critical. -/
theorem command_status_and_expiry_defaults (c : Cmd) (now : Nat) :
    c.status ∈ statusEnum ∧
    ((preSave now c).expiresAt).isSome = true ∧
    (c.expiresAt = none → c.priority = .normal →
      (preSave now c).expiresAt = some (now + 24 * 60 * 60 * 1000)) ∧
    (c.expiresAt = none → c.priority = .critical →
      (preSave now c).expiresAt = some (now + 168 * 60 * 60 * 1000)) := by
  refine ⟨?_, ?_, ?_, ?_⟩
  · cases h : c.status <;> simp [statusEnum]
  · cases h : c.expiresAt <;> simp [preSave, h]
  · intro hnone hpr
    simp [preSave, hnone, hpr]
  · intro hnone hpr
    simp [preSave, hnone, hpr]

/-- A normal-priority command created without an explicit deadline. -/
def cmdNoExpiry : Cmd :=
  { id := 12, deviceId := 7, parentId := 1, type := .play_sound,
    command := [], priority := .normal, createdAt := 0 }

/-- Witness for C9 (amended) at a concrete command with no supplied
`expiresAt`. -/
theorem command_status_and_expiry_defaults_witness :
    cmdNoExpiry.expiresAt = none ∧ cmdNoExpiry.priority = .normal ∧
    (preSave 0 cmdNoExpiry).expiresAt = some (0 + 24 * 60 * 60 * 1000) :=
  ⟨rfl, rfl,
   (command_status_and_expiry_defaults cmdNoExpiry 0).2.2.1 rfl rfl⟩

/-! ### C10 -/

/-- Claim C10: the heartbeat operation returns the device's pending
command summaries and a `requiresAction` flag without transitioning any
command: the command collection after the call is exactly the one
before it, `requiresAction` is set iff some command of the device is
eligible, and the summaries are a pure read of the eligible commands. -/
theorem heartbeat_leaves_commands_unchanged (devices : List Device)
    (cmds : Store) (deviceId batteryLevel : Nat) (isCharging : Bool)
    (now : Nat) (d : Device)
    (hd : devices.find? (fun x => x.deviceId == deviceId) = some d) :
    ∃ out, receiveHeartbeat devices cmds deviceId batteryLevel isCharging now =
        .ok out ∧
      out.commands = cmds ∧
      (out.requiresAction = true ↔ ∃ c ∈ cmds, pullFilter deviceId now c = true) ∧
      out.pendingCommands =
        (cmds.filter (pullFilter deviceId now)).map heartbeatItem := by
  simp only [receiveHeartbeat, hd]
  refine ⟨_, rfl, rfl, ?_, rfl⟩
  simp [List.length_pos_iff_exists_mem, List.mem_filter]

/-- A registered device, to witness C10. -/
def devRegistered : Device :=
  { deviceId := 7, parentId := 3, isOnline := true,
    lastHeartbeat := some 500 }

/-- An eligible command of that device, to witness C10. -/
def cmdOfDevice : Cmd :=
  { id := 13, deviceId := 7, parentId := 3, type := .vibrate,
    command := [], priority := .normal, status := .pending,
    expiresAt := some 9000, createdAt := 100 }

/-- Witness for C10 at one registered device and one eligible
command. -/
theorem heartbeat_leaves_commands_unchanged_witness :
    ([devRegistered].find? (fun x => x.deviceId == 7) = some devRegistered) ∧
    (∃ out, receiveHeartbeat [devRegistered] [cmdOfDevice] 7 80 false 1000 =
        .ok out ∧
      out.commands = [cmdOfDevice] ∧
      (out.requiresAction = true ↔
        ∃ c ∈ [cmdOfDevice], pullFilter 7 1000 c = true) ∧
      out.pendingCommands =
        ([cmdOfDevice].filter (pullFilter 7 1000)).map heartbeatItem) :=
  ⟨by decide,
   heartbeat_leaves_commands_unchanged [devRegistered] [cmdOfDevice] 7 80
     false 1000 devRegistered (by decide)⟩

end Wabs
